import Mathlib

/-!
Shallow embedding of `matrix_e2ee_filter.py` (digitalentity/matrix_encryption_disabler).

Python dicts whose keys the module reads are modelled as structures with
`Option` fields (a `none` field is an absent key).  Python exceptions are
modelled with `Except String`: a raised exception is `Except.error msg`.
Int-valued power levels are modelled as `Int`.
-/

/-- Content of an `m.room.power_levels` event, as the module reads/writes it.
Each Python dict key is an `Option` field (`none` = key absent).
`users` and `events` are association lists (Python dicts of string → int). -/
structure PLContent where
  users : Option (List (String × Int)) := none
  users_default : Option Int := none
  events : Option (List (String × Int)) := none
  events_default : Option Int := none
  state_default : Option Int := none
  ban : Option Int := none
  kick : Option Int := none
  redact : Option Int := none
  invite : Option Int := none
  historical : Option Int := none
deriving DecidableEq, Repr

/-- An event dictionary as the module reads it: keys `type`, `sender`,
`room_id`, `content`, each possibly absent. -/
structure EventDict where
  type : Option String := none
  sender : Option String := none
  room_id : Option String := none
  content : Option PLContent := none
deriving DecidableEq, Repr

/-- The plugin configuration held by `EncryptedRoomFilter.__init__`. -/
structure FilterConfig where
  deny_user_servers : List String := []
  deny_room_servers : List String := []
  patch_power_levels : Bool := false
deriving DecidableEq, Repr

/-- Verdict of the spam checker: Python `False` is `allow`,
a returned string is `deny reason`. -/
inductive SpamResult where
  | allow : SpamResult
  | deny : String → SpamResult
deriving DecidableEq, Repr

/-- Python dict assignment `d[k] = v` on an association list: replace the
value at the first occurrence of `k`, else append `(k, v)` at the end. -/
def setAssoc : List (String × Int) → String → Int → List (String × Int)
  | [], k, v => [(k, v)]
  | p :: rest, k, v => if p.1 = k then (k, v) :: rest else p :: setAssoc rest k v

/-- Python dict lookup `d[k]` on an association list (as an `Option`). -/
def getAssoc (l : List (String × Int)) (k : String) : Option Int :=
  (l.find? (fun p => p.1 = k)).map Prod.snd

/-- Python `max` over a list: `none` on the empty list (where Python raises
`ValueError`), otherwise the greatest element. -/
def maxList : List Int → Option Int
  | [] => none
  | x :: xs =>
    match maxList xs with
    | none => some x
    | some m => some (max x m)

/-- Split a character list at every colon (the unbounded `str.split(':')`). -/
def splitColon : List Char → List (List Char)
  | [] => [[]]
  | c :: rest =>
    if c = ':' then [] :: splitColon rest
    else
      match splitColon rest with
      | [] => [[c]]
      | p :: ps => (c :: p) :: ps

/-- Re-join character-list parts with colons (inverse of `splitColon`). -/
def joinColon : List (List Char) → List Char
  | [] => []
  | [p] => p
  | p :: rest => p ++ ':' :: joinColon rest

/-- Python `s.split(':', 2)`: split on `:` at most twice, so the result has
at most three parts and any further colons stay inside the last part. -/
def pySplitColon2 (s : String) : List String :=
  let ps := splitColon s.data
  if ps.length ≤ 3 then ps.map String.mk
  else (ps.take 2).map String.mk ++ [String.mk (joinColon (ps.drop 2))]

/-- Python 2-tuple unpacking `a, b = l`: succeeds exactly when the list has
two elements, otherwise raises `ValueError` (modelled as `none`). -/
def unpack2 (l : List String) : Option (String × String) :=
  match l with
  | [a, b] => some (a, b)
  | _ => none

/-- The `DEFAULT_EVENT_ACL` dict built inside `_patch_room_power_levels`. -/
def DEFAULT_EVENT_ACL : List (String × Int) :=
  [("m.room.name", 50),
   ("m.room.power_levels", 100),
   ("m.room.history_visibility", 100),
   ("m.room.canonical_alias", 50),
   ("m.room.avatar", 50),
   ("m.room.tombstone", 100),
   ("m.room.server_acl", 100),
   ("m.room.encryption", 100)]

/-- The fresh power-levels event generated by `_patch_room_power_levels`
when the seed is absent or has no `content`. -/
def freshPowerLevels (requester_user_id : String) : EventDict :=
  { type := some "m.room.power_levels",
    sender := some requester_user_id,
    content := some
      { users := some [(requester_user_id, 100)],
        users_default := some 0,
        events := some DEFAULT_EVENT_ACL,
        events_default := some 0,
        state_default := some 50,
        ban := some 50,
        kick := some 50,
        redact := some 50,
        invite := some 0,
        historical := some 100 } }

/-- `_patch_room_power_levels(room_power_levels, requester_user_id)`.
An `Except.error` is a propagated Python exception (here: `max` of an
empty `users` dict raising `ValueError`). -/
def _patch_room_power_levels (room_power_levels : Option EventDict)
    (requester_user_id : String) : Except String EventDict :=
  let doc : EventDict :=
    match room_power_levels with
    | none => freshPowerLevels requester_user_id
    | some ev => if ev.content = none then freshPowerLevels requester_user_id else ev
  match doc.content with
  | none => Except.error "KeyError: content"
  | some c =>
    let step : Except String (List (String × Int) × Int) :=
      match c.users with
      | none => Except.ok ([(requester_user_id, (100 : Int))], 150)
      | some us =>
        match maxList (us.map Prod.snd) with
        | none => Except.error "ValueError: max() arg is an empty sequence"
        | some m => Except.ok (us, m + 50)
    match step with
    | Except.error e => Except.error e
    | Except.ok (users, enc_power_level) =>
      let evts : List (String × Int) := (c.events).getD DEFAULT_EVENT_ACL
      Except.ok { doc with content := some ({ c with
        users := some users,
        events := some (setAssoc evts "m.room.encryption" enc_power_level) }) }

/-- The filtering loop of `on_create_room`: walks `initial_state`, raising
`KeyError` on an event with no `type`, dropping encryption and power-levels
events (remembering the last power-levels event seen), keeping the rest. -/
def filterInitialState : List EventDict →
    Except String (List EventDict × Option EventDict)
  | [] => Except.ok ([], none)
  | e :: rest =>
    match e.type with
    | none => Except.error "KeyError: type"
    | some t =>
      if t = "m.room.encryption" ∨ t = "m.room.power_levels" then
        match filterInitialState rest with
        | Except.error msg => Except.error msg
        | Except.ok (kept, ipl) =>
          if t = "m.room.power_levels" then
            match ipl with
            | none => Except.ok (kept, some e)
            | some x => Except.ok (kept, some x)
          else
            Except.ok (kept, ipl)
      else
        match filterInitialState rest with
        | Except.error msg => Except.error msg
        | Except.ok (kept, ipl) => Except.ok (e :: kept, ipl)

/-- `EncryptedRoomFilter.on_create_room`, as the rewrite it performs on
`initial_state` (the only observable effect of the Python method).
An `Except.error` is a propagated Python exception. -/
def on_create_room (cfg : FilterConfig) (requester_user_id : String)
    (initial_state : List EventDict) : Except String (List EventDict) :=
  match filterInitialState initial_state with
  | Except.error msg => Except.error msg
  | Except.ok (filtered, ipl0) =>
    let iplE : Except String (Option EventDict) :=
      if cfg.patch_power_levels then
        match _patch_room_power_levels ipl0 requester_user_id with
        | Except.error msg => Except.error msg
        | Except.ok d => Except.ok (some d)
      else Except.ok ipl0
    match iplE with
    | Except.error msg => Except.error msg
    | Except.ok none => Except.ok filtered
    | Except.ok (some d) => Except.ok (filtered ++ [d])

/-- `EncryptedRoomFilter.check_event_for_spam`.  The Python `try` block is
modelled by routing each possible exception (a `KeyError` on a missing
`sender`/`room_id`, a `ValueError` from 2-tuple unpacking) to the handler,
which returns the processing-error deny string. -/
def check_event_for_spam (cfg : FilterConfig) (ev : EventDict) : SpamResult :=
  if ev.type = some "m.room.encryption" then
    match ev.sender with
    | none => SpamResult.deny "Denied because an error occurred when processing the request"
    | some s =>
      match unpack2 (pySplitColon2 s) with
      | none => SpamResult.deny "Denied because an error occurred when processing the request"
      | some (_, user_server) =>
        match ev.room_id with
        | none => SpamResult.deny "Denied because an error occurred when processing the request"
        | some r =>
          match unpack2 (pySplitColon2 r) with
          | none => SpamResult.deny "Denied because an error occurred when processing the request"
          | some (_, room_server) =>
            if user_server ∈ cfg.deny_user_servers then
              SpamResult.deny "Encryption is not allowed"
            else if room_server ∈ cfg.deny_room_servers then
              SpamResult.deny "Encryption is not allowed"
            else
              SpamResult.allow
  else
    SpamResult.allow

/-! ## Spec-side descriptions used to state the claims -/

/-- Whether `on_create_room` strips this event from `initial_state`. -/
def isStripped (e : EventDict) : Bool :=
  decide (e.type = some "m.room.encryption") || decide (e.type = some "m.room.power_levels")

/-- The events of `initial_state` that the preprocessor keeps, in order. -/
def keptEvents : List EventDict → List EventDict
  | [] => []
  | e :: rest => if isStripped e then keptEvents rest else e :: keptEvents rest

/-- The last `m.room.power_levels` event of the list, if any: the seed the
preprocessor retains for synthesis (a later one overwrites an earlier one). -/
def lastPowerLevels : List EventDict → Option EventDict
  | [] => none
  | e :: rest =>
    match lastPowerLevels rest with
    | some x => some x
    | none => if e.type = some "m.room.power_levels" then some e else none

/-- A Matrix identifier is well formed for this module's parsing exactly when
it has a single colon, so that 2-tuple unpacking of `split(':', 2)` succeeds. -/
abbrev wellFormedId (s : String) : Prop := (splitColon s.data).length = 2

/-- The domain portion of a well-formed identifier: the part after the colon. -/
def domainOf (s : String) : String := String.mk ((splitColon s.data).getD 1 [])

/-- The event is malformed for the evaluator: a missing `sender` or `room_id`
key, or an identifier on which 2-tuple unpacking fails. -/
def malformedEvent (ev : EventDict) : Prop :=
  ev.sender = none ∨ ev.room_id = none ∨
    (∃ s, ev.sender = some s ∧ ¬ wellFormedId s) ∨
    (∃ r, ev.room_id = some r ∧ ¬ wellFormedId r)

/-- The `users` mapping of a power-levels event, if present. -/
def usersOf (d : EventDict) : Option (List (String × Int)) :=
  d.content.bind PLContent.users

/-- The `events["m.room.encryption"]` entry of a power-levels event. -/
def encLevelOf (d : EventDict) : Option Int :=
  match d.content with
  | none => none
  | some c =>
    match c.events with
    | none => none
    | some es => getAssoc es "m.room.encryption"

/-! ## Helper lemmas -/

lemma getAssoc_setAssoc (l : List (String × Int)) (k : String) (v : Int) :
    getAssoc (setAssoc l k v) k = some v := by
  induction l with
  | nil => simp [setAssoc, getAssoc]
  | cons p rest ih =>
    by_cases h : p.1 = k
    · simp [setAssoc, getAssoc, h]
    · simp [setAssoc, getAssoc, h] at ih ⊢
      exact ih

lemma maxList_eq_none (l : List Int) : maxList l = none ↔ l = [] := by
  cases l with
  | nil => simp [maxList]
  | cons x xs =>
    simp only [maxList]
    cases maxList xs <;> simp

lemma le_maxList (l : List Int) (x : Int) (m : Int)
    (hx : x ∈ l) (hm : maxList l = some m) : x ≤ m := by
  induction l generalizing m with
  | nil => cases hx
  | cons y ys ih =>
    rcases List.mem_cons.mp hx with rfl | hmem
    · simp only [maxList] at hm
      cases hys : maxList ys with
      | none => rw [hys] at hm; cases hm; exact le_refl _
      | some m2 => rw [hys] at hm; cases hm; exact le_max_left _ _
    · simp only [maxList] at hm
      cases hys : maxList ys with
      | none =>
        rw [maxList_eq_none] at hys
        subst hys
        cases hmem
      | some m2 =>
        rw [hys] at hm
        cases hm
        exact le_trans (ih m2 hmem hys) (le_max_right _ _)

lemma unpack2_eq_none (l : List String) (h : l.length ≠ 2) : unpack2 l = none := by
  match l with
  | [] => rfl
  | [_] => rfl
  | [_, _] => simp at h
  | _ :: _ :: _ :: _ => rfl

lemma unpack2_pySplit_of_wf (s : String) (h : wellFormedId s) :
    unpack2 (pySplitColon2 s) =
      some (String.mk ((splitColon s.data).getD 0 []), domainOf s) := by
  obtain ⟨a, b, hab⟩ := List.length_eq_two.mp h
  unfold pySplitColon2 domainOf
  rw [hab]
  rfl

lemma unpack2_pySplit_of_not_wf (s : String) (h : ¬ wellFormedId s) :
    unpack2 (pySplitColon2 s) = none := by
  unfold pySplitColon2
  by_cases hl : (splitColon s.data).length ≤ 3
  · rw [if_pos hl]
    apply unpack2_eq_none
    rw [List.length_map]
    exact h
  · rw [if_neg hl]
    apply unpack2_eq_none
    simp [List.length_take]
    omega

lemma filterInitialState_eq (init : List EventDict)
    (h : ∀ e ∈ init, (EventDict.type e).isSome) :
    filterInitialState init = Except.ok (keptEvents init, lastPowerLevels init) := by
  induction init with
  | nil => rfl
  | cons e rest ih =>
    obtain ⟨t, ht⟩ := Option.isSome_iff_exists.mp (h e (List.mem_cons_self e rest))
    have hrest := ih (fun x hx => h x (List.mem_cons_of_mem _ hx))
    by_cases hpl : t = "m.room.power_levels"
    · subst hpl
      cases hlp : lastPowerLevels rest <;>
        simp [filterInitialState, ht, hrest, keptEvents, isStripped, lastPowerLevels, hlp]
    · by_cases henc : t = "m.room.encryption"
      · subst henc
        cases hlp : lastPowerLevels rest <;>
          simp [filterInitialState, ht, hrest, keptEvents, isStripped, lastPowerLevels, hlp]
      · cases hlp : lastPowerLevels rest <;>
          simp [filterInitialState, ht, hrest, keptEvents, isStripped, lastPowerLevels,
            hlp, henc, hpl]

lemma filterInitialState_error (init : List EventDict)
    (h : ∃ e ∈ init, EventDict.type e = none) :
    filterInitialState init = Except.error "KeyError: type" := by
  induction init with
  | nil => simp at h
  | cons e rest ih =>
    rcases h with ⟨x, hx, hxt⟩
    rcases List.mem_cons.mp hx with rfl | hmem
    · simp [filterInitialState, hxt]
    · cases het : EventDict.type e with
      | none => simp [filterInitialState, het]
      | some t =>
        have hrest := ih ⟨x, hmem, hxt⟩
        simp [filterInitialState, het, hrest]

lemma check_malformed_deny (cfg : FilterConfig) (ev : EventDict)
    (ht : ev.type = some "m.room.encryption") (hm : malformedEvent ev) :
    check_event_for_spam cfg ev =
      SpamResult.deny "Denied because an error occurred when processing the request" := by
  unfold check_event_for_spam
  rw [if_pos ht]
  rcases hm with hs | hr | ⟨s, hs, hw⟩ | ⟨r, hr, hw⟩
  · rw [hs]
  · cases hse : ev.sender with
    | none => rfl
    | some s =>
      cases hu : unpack2 (pySplitColon2 s) with
      | none => simp [hu]
      | some p =>
        obtain ⟨a, b⟩ := p
        simp [hu, hr]
  · rw [hs]
    simp [unpack2_pySplit_of_not_wf s hw]
  · cases hse : ev.sender with
    | none => rfl
    | some s =>
      cases hu : unpack2 (pySplitColon2 s) with
      | none => simp [hu]
      | some p =>
        obtain ⟨a, b⟩ := p
        simp [hu, hr, unpack2_pySplit_of_not_wf r hw]

/-- The document `_patch_room_power_levels` produces from an absent seed or a
seed with no `content`: the fresh default document with the encryption entry
raised to 150 (= the creator's 100 plus 50). -/
def freshSynthesized (uid : String) : EventDict :=
  { type := some "m.room.power_levels",
    sender := some uid,
    content := some
      { users := some [(uid, 100)],
        users_default := some 0,
        events := some (setAssoc DEFAULT_EVENT_ACL "m.room.encryption" 150),
        events_default := some 0,
        state_default := some 50,
        ban := some 50,
        kick := some 50,
        redact := some 50,
        invite := some 0,
        historical := some 100 } }

lemma patch_none (uid : String) :
    _patch_room_power_levels none uid = Except.ok (freshSynthesized uid) := rfl

lemma patch_content_none (ty sen rid : Option String) (uid : String) :
    _patch_room_power_levels (some ⟨ty, sen, rid, none⟩) uid =
      Except.ok (freshSynthesized uid) := rfl

lemma patch_users_none (ty sen rid : Option String) (uid : String)
    (ud ed sd b k r i hi : Option Int) (evs : Option (List (String × Int))) :
    _patch_room_power_levels
        (some ⟨ty, sen, rid, some ⟨none, ud, evs, ed, sd, b, k, r, i, hi⟩⟩) uid =
      Except.ok ⟨ty, sen, rid, some
        ⟨some [(uid, 100)], ud,
         some (setAssoc (evs.getD DEFAULT_EVENT_ACL) "m.room.encryption" 150),
         ed, sd, b, k, r, i, hi⟩⟩ := rfl

lemma patch_users_some (ty sen rid : Option String) (uid : String)
    (ud ed sd b k r i hi : Option Int) (evs : Option (List (String × Int)))
    (us : List (String × Int)) (m : Int)
    (hm : maxList (us.map Prod.snd) = some m) :
    _patch_room_power_levels
        (some ⟨ty, sen, rid, some ⟨some us, ud, evs, ed, sd, b, k, r, i, hi⟩⟩) uid =
      Except.ok ⟨ty, sen, rid, some
        ⟨some us, ud,
         some (setAssoc (evs.getD DEFAULT_EVENT_ACL) "m.room.encryption" (m + 50)),
         ed, sd, b, k, r, i, hi⟩⟩ := by
  simp [_patch_room_power_levels, hm]

lemma patch_users_empty (ty sen rid : Option String) (uid : String)
    (ud ed sd b k r i hi : Option Int) (evs : Option (List (String × Int))) :
    _patch_room_power_levels
        (some ⟨ty, sen, rid, some ⟨some [], ud, evs, ed, sd, b, k, r, i, hi⟩⟩) uid =
      Except.error "ValueError: max() arg is an empty sequence" := rfl

lemma check_wellformed_eq (cfg : FilterConfig) (ev : EventDict) (s r : String)
    (ht : EventDict.type ev = some "m.room.encryption")
    (hs : ev.sender = some s) (hr : ev.room_id = some r)
    (hws : wellFormedId s) (hwr : wellFormedId r) :
    check_event_for_spam cfg ev =
      if domainOf s ∈ cfg.deny_user_servers then
        SpamResult.deny "Encryption is not allowed"
      else if domainOf r ∈ cfg.deny_room_servers then
        SpamResult.deny "Encryption is not allowed"
      else SpamResult.allow := by
  unfold check_event_for_spam
  rw [if_pos ht, hs]
  simp [unpack2_pySplit_of_wf s hws, hr, unpack2_pySplit_of_wf r hwr]

/-! ## Concrete fixtures for witnesses and counterexamples -/

/-- Scenario A's single proposed state event: an `m.room.name` event. -/
def nameEvent : EventDict := { type := some "m.room.name" }

/-- Scenario B's event: encryption enablement by `@bob:example.org`
in room `!x:good.org`. -/
def encEventBob : EventDict :=
  { type := some "m.room.encryption",
    sender := some "@bob:example.org",
    room_id := some "!x:good.org" }

/-- Scenario C's event: encryption enablement by a sender of `good.org`
in a room of `example.org`. -/
def encEventRoom : EventDict :=
  { type := some "m.room.encryption",
    sender := some "@bob:good.org",
    room_id := some "!x:example.org" }

/-- An encryption event whose sender's domain carries a port number,
so the sender identifier holds two colons. -/
def encEventPort : EventDict :=
  { type := some "m.room.encryption",
    sender := some "@bob:example.org:8448",
    room_id := some "!x:good.org" }

/-- A proposed state event with no `type` key at all. -/
def noTypeEvent : EventDict := { sender := some "@alice:good.org" }

/-! ## Claims -/

/-- C1, counterexample: with the default configuration
(`patch_power_levels = False`, no deny-lists) a creation request with a
single name event is rewritten to just that name event — no synthesized
power-levels document is appended, so the claim's unconditional "appends a
synthesized power-levels document as the final element" is false. -/
theorem claim1_counterexample :
    on_create_room { patch_power_levels := false } "@alice:good.org" [nameEvent] =
      Except.ok [nameEvent] ∧
    EventDict.type nameEvent ≠ some "m.room.power_levels" := by
  constructor
  · rfl
  · decide

/-- C1 (amended): when `patch_power_levels` is enabled and every proposed
event carries a `type` key, `on_create_room` drops every
`m.room.encryption` / `m.room.power_levels` event, keeps all other events
in their original relative order, and appends the document synthesized from
the retained power-levels seed (if any) as the final element. -/
theorem claim1_theorem (cfg : FilterConfig) (uid : String) (init : List EventDict)
    (hp : cfg.patch_power_levels = true)
    (hty : ∀ e ∈ init, (EventDict.type e).isSome) :
    on_create_room cfg uid init =
      (_patch_room_power_levels (lastPowerLevels init) uid).map
        (fun d => keptEvents init ++ [d]) := by
  unfold on_create_room
  rw [filterInitialState_eq init hty, hp]
  cases hpatch : _patch_room_power_levels (lastPowerLevels init) uid <;>
    simp [hpatch, Except.map]

/-- C1, witness: Scenario A — creator `@alice:good.org`, a single name
event, patching enabled: the output is the name event followed by the
synthesized power-levels document with `users = {creator: 100}` and
`events["m.room.encryption"] = 150`. -/
theorem claim1_witness :
    on_create_room { patch_power_levels := true } "@alice:good.org" [nameEvent] =
      (_patch_room_power_levels (lastPowerLevels [nameEvent]) "@alice:good.org").map
        (fun d => keptEvents [nameEvent] ++ [d]) ∧
    on_create_room { patch_power_levels := true } "@alice:good.org" [nameEvent] =
      Except.ok [nameEvent, freshSynthesized "@alice:good.org"] ∧
    usersOf (freshSynthesized "@alice:good.org") = some [("@alice:good.org", 100)] ∧
    encLevelOf (freshSynthesized "@alice:good.org") = some 150 := by
  refine ⟨claim1_theorem _ _ _ rfl ?_, rfl, rfl, rfl⟩
  decide

/-- C2: every non-encryption event is allowed; an encryption event with
well-formed `sender` and `room_id` is denied exactly when the sender's
domain is on the user deny-list (checked first, regardless of the room) or,
failing that, when the room's domain is on the room deny-list, and is
otherwise allowed. -/
theorem claim2_theorem (cfg : FilterConfig) (ev : EventDict) :
    (EventDict.type ev ≠ some "m.room.encryption" →
      check_event_for_spam cfg ev = SpamResult.allow) ∧
    (∀ s r, EventDict.type ev = some "m.room.encryption" →
      ev.sender = some s → ev.room_id = some r →
      wellFormedId s → wellFormedId r →
      check_event_for_spam cfg ev =
        if domainOf s ∈ cfg.deny_user_servers then
          SpamResult.deny "Encryption is not allowed"
        else if domainOf r ∈ cfg.deny_room_servers then
          SpamResult.deny "Encryption is not allowed"
        else SpamResult.allow) := by
  constructor
  · intro h
    unfold check_event_for_spam
    rw [if_neg h]
  · intro s r ht hs hr hws hwr
    exact check_wellformed_eq cfg ev s r ht hs hr hws hwr

/-- C2, witness: Scenario B — `@bob:example.org` enabling encryption in
`!x:good.org` with `example.org` on the user deny-list is denied. -/
theorem claim2_witness :
    check_event_for_spam { deny_user_servers := ["example.org"] } encEventBob =
      SpamResult.deny "Encryption is not allowed" := by
  have h := (claim2_theorem { deny_user_servers := ["example.org"] } encEventBob).2
    "@bob:example.org" "!x:good.org" rfl rfl rfl (by decide) (by decide)
  rw [h]
  decide

/-- C3: an encryption-type event that is malformed (missing `sender`,
missing `room_id`, or an identifier on which the parse fails) is denied with
the processing-error reason, and is never allowed. -/
theorem claim3_theorem (cfg : FilterConfig) (ev : EventDict)
    (ht : EventDict.type ev = some "m.room.encryption") (hm : malformedEvent ev) :
    check_event_for_spam cfg ev =
      SpamResult.deny "Denied because an error occurred when processing the request" ∧
    check_event_for_spam cfg ev ≠ SpamResult.allow := by
  have h := check_malformed_deny cfg ev ht hm
  refine ⟨h, ?_⟩
  rw [h]
  intro hc
  exact SpamResult.noConfusion hc

/-- C3, witness: an encryption event with no `sender` key is denied with the
processing-error reason. -/
theorem claim3_witness :
    check_event_for_spam { }
        { type := some "m.room.encryption", room_id := some "!x:good.org" } =
      SpamResult.deny "Denied because an error occurred when processing the request" ∧
    check_event_for_spam { }
        { type := some "m.room.encryption", room_id := some "!x:good.org" } ≠
      SpamResult.allow :=
  claim3_theorem _ _ rfl (Or.inl rfl)

/-- C8: a creation request whose `initial_state` contains an event with no
`type` key makes `on_create_room` raise (a `KeyError` propagating to the
caller); no rewritten state list is produced at all. -/
theorem claim8_theorem (cfg : FilterConfig) (uid : String) (init : List EventDict)
    (h : ∃ e ∈ init, EventDict.type e = none) :
    on_create_room cfg uid init = Except.error "KeyError: type" := by
  unfold on_create_room
  rw [filterInitialState_error init h]

/-- C8, witness: a single event carrying only a `sender` key makes
`on_create_room` fail with the propagated `KeyError`. -/
theorem claim8_witness :
    on_create_room { } "@alice:good.org" [noTypeEvent] =
      Except.error "KeyError: type" :=
  claim8_theorem { } "@alice:good.org" [noTypeEvent]
    ⟨noTypeEvent, List.mem_cons_self noTypeEvent [], rfl⟩

/-- C10: an event whose dictionary has no `type` key at all is allowed —
`dict.get('type', None)` yields `None`, which is not the encryption type, so
neither the deny-lists nor the error path is reached. -/
theorem claim10_theorem (cfg : FilterConfig) (ev : EventDict)
    (h : EventDict.type ev = none) :
    check_event_for_spam cfg ev = SpamResult.allow := by
  unfold check_event_for_spam
  rw [if_neg (by simp [h])]

/-- C10, witness: an event with only `sender` and `room_id` keys is allowed. -/
theorem claim10_witness :
    check_event_for_spam { }
        { sender := some "@bob:example.org", room_id := some "!x:good.org" } =
      SpamResult.allow :=
  claim10_theorem { }
    { sender := some "@bob:example.org", room_id := some "!x:good.org" } rfl

/-- Scenario D's seed: a user-supplied power-levels proposal with two users
at privilege 100 and 150. -/
def seedD : EventDict :=
  { type := some "m.room.power_levels",
    content := some { users := some [("@alice:x", 100), ("@carol:x", 150)] } }

/-- C4: given a seed with a `content` body, the synthesizer yields
`users = {creator: 100}` with encryption level exactly 150 when the seed has
no `users` mapping, and encryption level `max(users.values()) + 50` written
into the `events` override (overwriting any prior entry) when the seed has a
`users` mapping with a maximum. -/
theorem claim4_theorem (seed : EventDict) (uid : String) (c : PLContent)
    (hc : seed.content = some c) :
    (c.users = none →
      ∃ d, _patch_room_power_levels (some seed) uid = Except.ok d ∧
        usersOf d = some [(uid, 100)] ∧ encLevelOf d = some 150) ∧
    (∀ us m, c.users = some us → maxList (us.map Prod.snd) = some m →
      ∃ d, _patch_room_power_levels (some seed) uid = Except.ok d ∧
        encLevelOf d = some (m + 50)) := by
  obtain ⟨ty, sen, rid, cont⟩ := seed
  replace hc : cont = some c := hc
  subst hc
  obtain ⟨cus, cud, cev, ced, csd, cb, ck, cr, ci, chist⟩ := c
  constructor
  · intro hu
    replace hu : cus = none := hu
    subst hu
    refine ⟨_, patch_users_none ty sen rid uid cud ced csd cb ck cr ci chist cev,
      rfl, ?_⟩
    show getAssoc (setAssoc (cev.getD DEFAULT_EVENT_ACL) "m.room.encryption" 150)
      "m.room.encryption" = some 150
    exact getAssoc_setAssoc _ _ _
  · intro us m hu hm
    replace hu : cus = some us := hu
    subst hu
    refine ⟨_,
      patch_users_some ty sen rid uid cud ced csd cb ck cr ci chist cev us m hm, ?_⟩
    show getAssoc (setAssoc (cev.getD DEFAULT_EVENT_ACL) "m.room.encryption" (m + 50))
      "m.room.encryption" = some (m + 50)
    exact getAssoc_setAssoc _ _ _

/-- C4, witness: Scenario D — a seed with users at 100 and 150 yields
`events["m.room.encryption"] = 200`. -/
theorem claim4_witness :
    ∃ d, _patch_room_power_levels (some seedD) "@alice:x" = Except.ok d ∧
      encLevelOf d = some 200 := by
  have h := (claim4_theorem seedD "@alice:x"
      { users := some [("@alice:x", 100), ("@carol:x", 150)] } rfl).2
    [("@alice:x", 100), ("@carol:x", 150)] 150 rfl (by decide)
  simpa using h

/-- The synthesis invariant holds of the fresh-document branch. -/
lemma fresh_invariant (uid : String) :
    ∃ us m encL, usersOf (freshSynthesized uid) = some us ∧
      maxList (us.map Prod.snd) = some m ∧
      encLevelOf (freshSynthesized uid) = some encL ∧ m < encL := by
  refine ⟨[(uid, 100)], 100, 150, rfl, rfl, ?_, by norm_num⟩
  show getAssoc (setAssoc DEFAULT_EVENT_ACL "m.room.encryption" 150)
    "m.room.encryption" = some 150
  exact getAssoc_setAssoc _ _ _

/-- C5: every document the synthesizer returns satisfies the invariant
`events["m.room.encryption"] > max(users.values())`. -/
theorem claim5_theorem (rpl : Option EventDict) (uid : String) (d : EventDict)
    (h : _patch_room_power_levels rpl uid = Except.ok d) :
    ∃ us m encL, usersOf d = some us ∧ maxList (us.map Prod.snd) = some m ∧
      encLevelOf d = some encL ∧ m < encL := by
  cases rpl with
  | none =>
    rw [patch_none] at h
    injection h with h
    subst h
    exact fresh_invariant uid
  | some seed =>
    obtain ⟨ty, sen, rid, cont⟩ := seed
    cases cont with
    | none =>
      rw [patch_content_none] at h
      injection h with h
      subst h
      exact fresh_invariant uid
    | some c =>
      obtain ⟨cus, cud, cev, ced, csd, cb, ck, cr, ci, chist⟩ := c
      cases cus with
      | none =>
        rw [patch_users_none] at h
        injection h with h
        subst h
        refine ⟨[(uid, 100)], 100, 150, rfl, rfl, ?_, by norm_num⟩
        show getAssoc (setAssoc (cev.getD DEFAULT_EVENT_ACL) "m.room.encryption" 150)
          "m.room.encryption" = some 150
        exact getAssoc_setAssoc _ _ _
      | some us =>
        cases hm : maxList (us.map Prod.snd) with
        | none =>
          rw [maxList_eq_none, List.map_eq_nil_iff] at hm
          subst hm
          rw [patch_users_empty] at h
          exact Except.noConfusion h
        | some m =>
          rw [patch_users_some ty sen rid uid cud ced csd cb ck cr ci chist cev
            us m hm] at h
          injection h with h
          subst h
          refine ⟨us, m, m + 50, rfl, hm, ?_, by omega⟩
          show getAssoc (setAssoc (cev.getD DEFAULT_EVENT_ACL)
            "m.room.encryption" (m + 50)) "m.room.encryption" = some (m + 50)
          exact getAssoc_setAssoc _ _ _

/-- C5, witness: the invariant at the document synthesized for
`@alice:good.org` from an absent seed. -/
theorem claim5_witness :
    ∃ us m encL, usersOf (freshSynthesized "@alice:good.org") = some us ∧
      maxList (us.map Prod.snd) = some m ∧
      encLevelOf (freshSynthesized "@alice:good.org") = some encL ∧ m < encL :=
  claim5_theorem none "@alice:good.org" (freshSynthesized "@alice:good.org") rfl

/-- C6, counterexample: for an encryption event whose sender carries a port
(`@bob:example.org:8448`) and empty deny-lists, the claim predicts Allow
(full domain evaluated against the deny-lists), but the evaluator returns
the processing-error deny: the 3-part split fails 2-tuple unpacking. -/
theorem claim6_counterexample :
    check_event_for_spam { } encEventPort =
      SpamResult.deny "Denied because an error occurred when processing the request" ∧
    check_event_for_spam { } encEventPort ≠ SpamResult.allow := by
  constructor
  · decide
  · decide

/-- C6 (amended): domain extraction succeeds only for identifiers with
exactly one colon; an encryption event whose sender contains two or more
colons (e.g. a port suffix) makes the 2-tuple unpacking of `split(':', 2)`
raise, so the event is denied with the processing-error reason instead of
being evaluated against the deny-lists. -/
theorem claim6_theorem (cfg : FilterConfig) (ev : EventDict) (s : String)
    (ht : EventDict.type ev = some "m.room.encryption") (hs : ev.sender = some s)
    (hcolons : 3 ≤ (splitColon s.data).length) :
    check_event_for_spam cfg ev =
      SpamResult.deny "Denied because an error occurred when processing the request" :=
  check_malformed_deny cfg ev ht (Or.inr (Or.inr (Or.inl ⟨s, hs, by omega⟩)))

/-- C6, witness: even with the sender's full ported domain on the user
deny-list, the ported sender is denied through the error path. -/
theorem claim6_witness :
    check_event_for_spam { deny_user_servers := ["example.org:8448"] } encEventPort =
      SpamResult.deny "Denied because an error occurred when processing the request" :=
  claim6_theorem { deny_user_servers := ["example.org:8448"] } encEventPort
    "@bob:example.org:8448" rfl rfl (by decide)

/-- C7, counterexample: a user-domain denial carries the reason
`"Encryption is not allowed"`, not the claim's distinct
`"encryption not allowed: requester domain denied"`. -/
theorem claim7_counterexample :
    check_event_for_spam { deny_user_servers := ["example.org"] } encEventBob =
      SpamResult.deny "Encryption is not allowed" ∧
    "Encryption is not allowed" ≠ "encryption not allowed: requester domain denied" := by
  constructor
  · decide
  · decide

/-- C7 (amended): the two domain-based denials both carry the same reason
string `"Encryption is not allowed"` (user-domain match and room-domain
match are not distinguishable), while a parse failure carries
`"Denied because an error occurred when processing the request"`. -/
theorem claim7_theorem :
    (∀ (cfg : FilterConfig) (ev : EventDict) (s r : String),
      EventDict.type ev = some "m.room.encryption" →
      ev.sender = some s → ev.room_id = some r →
      wellFormedId s → wellFormedId r →
      domainOf s ∈ cfg.deny_user_servers →
      check_event_for_spam cfg ev = SpamResult.deny "Encryption is not allowed") ∧
    (∀ (cfg : FilterConfig) (ev : EventDict) (s r : String),
      EventDict.type ev = some "m.room.encryption" →
      ev.sender = some s → ev.room_id = some r →
      wellFormedId s → wellFormedId r →
      domainOf s ∉ cfg.deny_user_servers →
      domainOf r ∈ cfg.deny_room_servers →
      check_event_for_spam cfg ev = SpamResult.deny "Encryption is not allowed") ∧
    (∀ (cfg : FilterConfig) (ev : EventDict),
      EventDict.type ev = some "m.room.encryption" → malformedEvent ev →
      check_event_for_spam cfg ev =
        SpamResult.deny "Denied because an error occurred when processing the request") := by
  refine ⟨?_, ?_, check_malformed_deny⟩
  · intro cfg ev s r ht hs hr hws hwr hmem
    rw [check_wellformed_eq cfg ev s r ht hs hr hws hwr, if_pos hmem]
  · intro cfg ev s r ht hs hr hws hwr hnmem hmem
    rw [check_wellformed_eq cfg ev s r ht hs hr hws hwr, if_neg hnmem, if_pos hmem]

/-- C7, witness: Scenario B (user-domain denial), Scenario C (room-domain
denial) — both with the shared reason — and a missing-sender parse failure
with the processing-error reason. -/
theorem claim7_witness :
    check_event_for_spam { deny_user_servers := ["example.org"] } encEventBob =
      SpamResult.deny "Encryption is not allowed" ∧
    check_event_for_spam { deny_room_servers := ["example.org"] } encEventRoom =
      SpamResult.deny "Encryption is not allowed" ∧
    check_event_for_spam { } { type := some "m.room.encryption" } =
      SpamResult.deny "Denied because an error occurred when processing the request" := by
  refine ⟨?_, ?_, ?_⟩
  · exact claim7_theorem.1 _ _ "@bob:example.org" "!x:good.org"
      rfl rfl rfl (by decide) (by decide) (by decide)
  · exact claim7_theorem.2.1 _ _ "@bob:good.org" "!x:example.org"
      rfl rfl rfl (by decide) (by decide) (by decide) (by decide)
  · exact claim7_theorem.2.2 _ _ rfl (Or.inl rfl)

/-- C9: synthesis from an absent seed yields encryption threshold 150, and
feeding that document back as the seed yields a document whose encryption
threshold is still 150 (the creator's privilege 100 is unchanged). -/
theorem claim9_theorem (uid : String) :
    ∃ d d', _patch_room_power_levels none uid = Except.ok d ∧
      _patch_room_power_levels (some d) uid = Except.ok d' ∧
      encLevelOf d = some 150 ∧ encLevelOf d' = some 150 :=
  ⟨_, _, rfl, rfl, rfl, rfl⟩

/-- C9, witness: the idempotence instance for creator `@alice:good.org`. -/
theorem claim9_witness :
    ∃ d d', _patch_room_power_levels none "@alice:good.org" = Except.ok d ∧
      _patch_room_power_levels (some d) "@alice:good.org" = Except.ok d' ∧
      encLevelOf d = some 150 ∧ encLevelOf d' = some 150 :=
  claim9_theorem "@alice:good.org"
